import Mathlib

/-!
Shallow embedding of the `forge init` command (`crates/forge/src/cmd/init.rs`).

The command's pure decision logic is translated into executable Lean
definitions.  External collaborators (the git wrapper, the dependency
installer, `serde_json`, `Config::load_with_root`, `Remapping::find_many`,
the embedded asset files) are modelled as explicit parameters: the
filesystem is an explicit state value, git query answers and parse results
are inputs, and asset contents are arbitrary strings carried in an
environment record.
-/

namespace ForgeInit

/-- Rust `str::contains`: the pattern occurs as a contiguous substring. -/
def strContains (s pat : String) : Bool :=
  decide (pat.data <:+: s.data)

/-- Literal `"://"` from `init.rs` line 64. -/
def protoSep : String := "://"

/-- Literal `"github.com/"` from `init.rs` line 66. -/
def ghPre : String := "github.com/"

/-- Literal `"https://"` from `init.rs` line 67. -/
def httpsPre : String := "https://"

/-- Literal `"https://github.com/"` from `init.rs` line 69. -/
def ghFull : String := "https://github.com/"

/-- Template reference normalization, translated from `init.rs` lines 64-70:
`if template.contains("://") { template } else if template.starts_with("github.com/")
{ "https://" + template } else { "https://github.com/" + template }`. -/
def resolveTemplate (template : String) : String :=
  if strContains template protoSep then
    template
  else if template.startsWith ghPre then
    httpsPre ++ template
  else
    ghFull ++ template

/-- Refinement target for C1, written from the spec's words: pass through a
string containing "://" unchanged; else prefix "https://" when the string
starts with "github.com/"; else prefix "https://github.com/"; the three
rules are tried in that priority order. -/
def resolvedUrlSpec (r : String) : String :=
  if strContains r protoSep then r
  else if r.startsWith ghPre then httpsPre ++ r
  else ghFull ++ r

/-- Model of a `serde_json::Value`: the JSON document type used for the
`.vscode/settings.json` file.  Objects are key-ordered association lists,
mirroring the `serde_json::Map` used by the source. -/
inductive Json where
  | null : Json
  | bool (b : Bool) : Json
  | num (n : Int) : Json
  | str (s : String) : Json
  | arr (xs : List Json) : Json
  | obj (kvs : List (String × Json)) : Json

/-- True exactly on JSON objects (Rust `Value::as_object_mut().is_some()`). -/
def Json.isObj : Json → Bool
  | Json.obj _ => true
  | _ => false

/-- Association-list lookup with string keys, modelling both directory-entry
lookup in the filesystem and `serde_json::Map` key lookup. -/
def lookupStr {α : Type} (k : String) : List (String × α) → Option α
  | [] => none
  | kv :: rest => if kv.1 = k then some kv.2 else lookupStr k rest

/-- Filesystem state under the project root.  `files` maps root-relative
paths to contents (later entries shadowed by earlier ones), `dirs` lists
existing subdirectories, and `rootExists` records whether the root
directory itself exists (`init.rs` lines 54-56 create it when absent). -/
structure FS where
  rootExists : Bool
  files : List (String × String)
  dirs : List String
deriving DecidableEq, Repr

/-- Content of a file, `none` when the file does not exist. -/
def FS.getFile (fs : FS) (p : String) : Option String :=
  lookupStr p fs.files

/-- Rust `Path::exists` on a file path. -/
def FS.fileExists (fs : FS) (p : String) : Bool :=
  (fs.getFile p).isSome

/-- Rust `Path::is_dir`. -/
def FS.dirExists (fs : FS) (d : String) : Bool :=
  fs.dirs.contains d

/-- Rust `fs::write`: create or overwrite the file at `p`. -/
def FS.setFile (fs : FS) (p c : String) : FS :=
  { fs with files := (p, c) :: fs.files }

/-- Rust `fs::create_dir_all`: a no-op when the directory exists. -/
def FS.createDir (fs : FS) (d : String) : FS :=
  { fs with dirs := d :: fs.dirs }

/-- Result of a run: normal completion, a Rust `Err` propagated with `?` or
`bail!`, or a Rust panic (`expect`).  Each failing outcome carries the
state at the moment of failure, so "nothing was written" is expressible. -/
inductive Outcome (α : Type) where
  | ok (a : α) : Outcome α
  | err (msg : String) (st : α) : Outcome α
  | fatal (msg : String) (st : α) : Outcome α
deriving DecidableEq, Repr

/-- State carried by an outcome. -/
def Outcome.state {α : Type} : Outcome α → α
  | Outcome.ok a => a
  | Outcome.err _ a => a
  | Outcome.fatal _ a => a

/-- True on the `err` outcome. -/
def Outcome.isErr {α : Type} : Outcome α → Bool
  | Outcome.err _ _ => true
  | _ => false

/-- True on the `ok` outcome. -/
def Outcome.isOk {α : Type} : Outcome α → Bool
  | Outcome.ok _ => true
  | _ => false

/-- Path `src` (`init.rs` line 116). -/
def dSrc : String := "src"

/-- Path `test` (`init.rs` line 119). -/
def dTest : String := "test"

/-- Path `script` (`init.rs` line 122). -/
def dScript : String := "script"

/-- Path `src/interface` (`init.rs` line 128). -/
def dInterface : String := "src/interface"

/-- Path `src/utils` (`init.rs` line 130). -/
def dUtils : String := "src/utils"

/-- Path `test/Counter.t.sol` (both variants). -/
def pTestFile : String := "test/Counter.t.sol"

/-- Path `script/Counter.s.sol` (both variants). -/
def pScriptFile : String := "script/Counter.s.sol"

/-- Path `README.md`. -/
def pReadme : String := "README.md"

/-- Path `src/Counter.vy` (vyper variant contract). -/
def pVyContract : String := "src/Counter.vy"

/-- Path `src/interface/ICounter.sol` (vyper variant). -/
def pVyInterface : String := "src/interface/ICounter.sol"

/-- Path `src/utils/VyperDeployer.sol` (vyper variant). -/
def pVyDeployer : String := "src/utils/VyperDeployer.sol"

/-- Path `src/Counter.sol` (solidity variant contract). -/
def pSolContract : String := "src/Counter.sol"

/-- Path `foundry.toml` (`Config::FILE_NAME`). -/
def pFoundryToml : String := "foundry.toml"

/-- Path `.gitignore` (`init.rs` line 226). -/
def pGitignore : String := ".gitignore"

/-- Path `.github/workflows` (parent of the workflow file). -/
def dWorkflows : String := ".github/workflows"

/-- Path `.github/workflows/test.yml` (`init.rs` line 232). -/
def pWorkflow : String := ".github/workflows/test.yml"

/-- Path `lib/forge-std` (`init.rs` line 194). -/
def dLibForgeStd : String := "lib/forge-std"

/-- Path `remappings.txt` (`init.rs` line 253). -/
def pRemappings : String := "remappings.txt"

/-- Path `.vscode` (`init.rs` line 266). -/
def dVscode : String := ".vscode"

/-- Path `.vscode/settings.json` (`init.rs` line 267). -/
def pSettings : String := ".vscode/settings.json"

/-- Key `solidity.packageDefaultDependenciesContractsDirectory`
(`init.rs` line 279). -/
def srcKey : String := "solidity.packageDefaultDependenciesContractsDirectory"

/-- Key `solidity.packageDefaultDependenciesDirectory` (`init.rs` line 283). -/
def libKey : String := "solidity.packageDefaultDependenciesDirectory"

/-- Value inserted for `srcKey` (`init.rs` line 281). -/
def srcDirVal : String := "src"

/-- Value inserted for `libKey` (`init.rs` line 285). -/
def libDirVal : String := "lib"

/-- Newline separator used by `remappings.join("\n")`. -/
def nl : String := "\n"

/-- The fixed vyper `foundry.toml` content (`init.rs` line 179). -/
def vyperToml : String := "[profile.default]\nsrc = \"src\"\nout = \"out\"\nlibs = [\"lib\"]\nffi = true\n\n# See more config options https://github.com/foundry-rs/foundry/blob/master/crates/config/README.md#all-options"

/-- Error message of the non-empty-directory bail (`init.rs` lines 100-103). -/
def msgNonEmpty : String := "Cannot run `init` on a non-empty directory.\nRun with the `--force` flag to initialize regardless."

/-- Error propagated from `git.ensure_clean()` when the working tree is
dirty (the git wrapper is an external collaborator; only the fact that an
error is returned matters here). -/
def msgNotClean : String := "git: dirty working tree"

/-- Error propagated from `Config::load_with_root(&root)?` when loading the
configuration fails. -/
def msgConfigLoad : String := "config: failed to load"

/-- Error propagated from `self.install.install(..)?` when the dependency
install fails. -/
def msgInstall : String := "install: failed"

/-- Error propagated from `read_json_file(&settings_file)?` on unparseable
settings content (`init.rs` line 272). -/
def msgBadSettings : String := "failed to parse settings file"

/-- Panic message of `settings.as_object_mut().expect(..)` (`init.rs`
line 277). -/
def msgExpectObj : String := "Expected settings object"

/-- The request flags consumed by `InitArgs::run`: `force`, `offline`,
`vscode`, `vyper` from `InitArgs` and `shallow`, `no_git`, `commit` from
the flattened `DependencyInstallOpts`. -/
structure Flags where
  offline : Bool
  force : Bool
  vscode : Bool
  vyper : Bool
  shallow : Bool
  noGit : Bool
  commit : Bool
deriving DecidableEq, Repr

/-- Answers of the git collaborator queried in default mode:
`git.is_in_repo()` and whether `git.ensure_clean()` succeeds. -/
structure GitEnv where
  inRepo : Bool
  clean : Bool
deriving DecidableEq, Repr

/-- The embedded asset files (`include_str!` resources under
`crates/forge/assets/`); their contents are build-time constants external
to `init.rs`, so they are carried as arbitrary strings. -/
structure Assets where
  vyTest : String
  vyScript : String
  vyReadme : String
  vyContract : String
  vyInterface : String
  vyDeployer : String
  solTest : String
  solScript : String
  solReadme : String
  solContract : String
  gitignore : String
  vyWorkflow : String
  solWorkflow : String
deriving DecidableEq, Repr

/-- External collaborators of one default-mode run: the git query answers,
the result of `Config::load_with_root` pretty-printed (`none` models a load
error), whether the dependency install call succeeds, the remapping strings
produced by `Remapping::find_many(...).map(...)` discovery, and the JSON
parse/serialize functions of `serde_json`. -/
structure Env where
  git : GitEnv
  cfg : Option String
  installOk : Bool
  discovered : List String
  parse : String → Option Json
  ser : Json → String

/-- Lexicographic ascending sort, modelling Rust `Vec::sort` on the
remapping strings (`remappings.sort()`, `init.rs` line 260): any correct
sort produces the same list, since a sorted permutation of a list of
strings is unique. -/
def sortStrings (l : List String) : List String :=
  List.insertionSort (· ≤ ·) l

/-- Remappings phase of `init_vscode` (`init.rs` lines 253-264): when
`remappings.txt` is absent, discover remappings; when the discovered list
is non-empty, sort it and write it joined by newlines. -/
def remapPhase (E : Env) (fs : FS) : FS :=
  if !(fs.fileExists pRemappings) then
    if E.discovered.isEmpty then fs
    else fs.setFile pRemappings (String.intercalate nl (sortStrings E.discovered))
  else fs

/-- Guarded insertion into the settings object: `if !obj.contains_key(k)
{ obj.insert(k, v) }` (`init.rs` lines 280-286). -/
def insertAbsent (kvs : List (String × Json)) (k : String) (v : Json) :
    List (String × Json) :=
  if (lookupStr k kvs).isSome then kvs else kvs ++ [(k, v)]

/-- The two guarded key insertions of `init_vscode` (`init.rs` lines
278-286). -/
def mergeSettings (kvs : List (String × Json)) : List (String × Json) :=
  insertAbsent (insertAbsent kvs srcKey (Json.str srcDirVal)) libKey
    (Json.str libDirVal)

/-- Tail of `init_vscode` after the settings document is obtained
(`init.rs` lines 277-289): `as_object_mut().expect(..)` panics on a
non-object document; otherwise the two keys are inserted when absent and
the document is serialized and written. -/
def finishSettings (E : Env) (fs : FS) (v : Json) : Outcome FS :=
  match v with
  | Json.obj kvs =>
      Outcome.ok (fs.setFile pSettings (E.ser (Json.obj (mergeSettings kvs))))
  | _ => Outcome.fatal msgExpectObj fs

/-- Settings phase of `init_vscode` (`init.rs` lines 266-289): create the
`.vscode` directory and start from an empty document when the directory is
absent; otherwise parse an existing settings file (propagating a parse
error) or start empty when no file is present. -/
def settingsPhase (E : Env) (fs : FS) : Outcome FS :=
  if !(fs.dirExists dVscode) then
    finishSettings E (fs.createDir dVscode) (Json.obj [])
  else
    match fs.getFile pSettings with
    | some s =>
        match E.parse s with
        | none => Outcome.err msgBadSettings fs
        | some v => finishSettings E fs v
    | none => finishSettings E fs (Json.obj [])

/-- `init_vscode` (`init.rs` lines 252-292). -/
def init_vscode (E : Env) (fs : FS) : Outcome FS :=
  settingsPhase E (remapPhase E fs)

/-- `init_git_repo` (`init.rs` lines 219-249): `git.init()` when not
already in a repository, then guarded writes of `.gitignore` and the
workflow file; the `git add`/`git commit` calls mutate only the repository,
not the modelled files. -/
def init_git_repo (A : Assets) (fl : Flags) (fs : FS) : FS :=
  let fs := if !(fs.fileExists pGitignore) then fs.setFile pGitignore A.gitignore
            else fs
  if !(fs.fileExists pWorkflow) then
    (fs.createDir dWorkflows).setFile pWorkflow
      (if fl.vyper then A.vyWorkflow else A.solWorkflow)
  else fs

/-- Scaffold writes of the default branch (`init.rs` lines 116-171): the
three top-level directories, then the variant-selected template files,
written unconditionally. -/
def scaffold (A : Assets) (fl : Flags) (fs : FS) : FS :=
  let fs := fs.createDir dSrc
  let fs := fs.createDir dTest
  let fs := fs.createDir dScript
  if fl.vyper then
    let fs := fs.createDir dInterface
    let fs := fs.createDir dUtils
    let fs := fs.setFile pTestFile A.vyTest
    let fs := fs.setFile pScriptFile A.vyScript
    let fs := fs.setFile pReadme A.vyReadme
    let fs := fs.setFile pVyContract A.vyContract
    let fs := fs.setFile pVyInterface A.vyInterface
    fs.setFile pVyDeployer A.vyDeployer
  else
    let fs := fs.setFile pTestFile A.solTest
    let fs := fs.setFile pScriptFile A.solScript
    let fs := fs.setFile pReadme A.solReadme
    fs.setFile pSolContract A.solContract

/-- Guarded `foundry.toml` write (`init.rs` lines 173-184): the vyper
variant writes a fixed config, the default variant the loaded config's
basic pretty-printed form, each only when the file does not exist. -/
def tomlPhase (fl : Flags) (cfgText : String) (fs : FS) : FS :=
  if fl.vyper then
    if !(fs.fileExists pFoundryToml) then fs.setFile pFoundryToml vyperToml
    else fs
  else
    if !(fs.fileExists pFoundryToml) then fs.setFile pFoundryToml cfgText
    else fs

/-- Dependency install step (`init.rs` lines 192-201).  Modelled from the
spec: the installer is an external collaborator; when `lib/forge-std`
already exists it is invoked with no new dependency (a warning plus a
best-effort call), otherwise it materializes the `lib/forge-std`
directory.  A failing install propagates its error. -/
def installPhase (E : Env) (fl : Flags) (fs : FS) : Outcome FS :=
  if !fl.offline then
    if E.installOk then
      Outcome.ok (if fs.dirExists dLibForgeStd then fs else fs.createDir dLibForgeStd)
    else Outcome.err msgInstall fs
  else Outcome.ok fs

/-- Conditional repository setup (`init.rs` lines 188-190): `init_git_repo`
unless git is skipped. -/
def gitStep (A : Assets) (fl : Flags) (fs : FS) : FS :=
  if !fl.noGit then init_git_repo A fl fs else fs

/-- Tail of the default branch after the config write (`init.rs` lines
192-206): the dependency install followed by the optional vscode setup. -/
def installVscodeStep (E : Env) (fl : Flags) (fs : FS) : Outcome FS :=
  match installPhase E fl fs with
  | Outcome.ok fs' =>
      if fl.vscode then init_vscode E fs' else Outcome.ok fs'
  | e => e

/-- The default (non-template) branch of `InitArgs::run` on an existing
root (`init.rs` lines 96-207): bail on a non-empty root without `--force`,
require a clean tree when a commit is requested in an existing repository
without `--force`, then scaffold, write the config, set up the repository,
install the dependency and optionally emit the vscode configuration. -/
def run_default_core (A : Assets) (E : Env) (fl : Flags) (fs : FS) : Outcome FS :=
  if (!fs.files.isEmpty || !fs.dirs.isEmpty) && !fl.force then
    Outcome.err msgNonEmpty fs
  else if !fl.noGit && fl.commit && !fl.force && E.git.inRepo && !E.git.clean then
    Outcome.err msgNotClean fs
  else
    match E.cfg with
    | none => Outcome.err msgConfigLoad (scaffold A fl fs)
    | some cfgText =>
        installVscodeStep E fl (gitStep A fl (tomlPhase fl cfgText (scaffold A fl fs)))

/-- The default branch of `InitArgs::run` including root creation
(`init.rs` lines 54-56): the root directory is created when absent, then
the default-mode pipeline runs. -/
def run_default (A : Assets) (E : Env) (fl : Flags) (fs0 : FS) : Outcome FS :=
  run_default_core A E fl
    (if fs0.rootExists then fs0 else { fs0 with rootExists := true })

/-- A commit object in the modelled repository: a tree identifier, a
message, and an optional parent hash (`commit_tree` is called without a
parent in `init.rs` line 85, collapsing history). -/
structure Commit where
  tree : Nat
  message : String
  parent : Option String
deriving DecidableEq, Repr

/-- Repository state visible to template mode: the commit object store, the
current head and the `FETCH_HEAD` reference. -/
structure Repo where
  commits : List (String × Commit)
  head : Option String
  fetchHead : Option String
deriving DecidableEq, Repr

/-- Answers of the git collaborator in template mode: whether the network
fetch succeeds, the commit objects it brings into the store, the hash
`FETCH_HEAD` resolves to, and the hash git assigns to the commit created by
`commit_tree`. -/
structure TemplateEnv where
  fetchOk : Bool
  fetched : List (String × Commit)
  fetchHeadHash : String
  newHash : String
deriving DecidableEq, Repr

/-- Trace of calls made to the git wrapper, with the arguments the source
passes (`git.fetch(true, url, branch)`, `git.submodule_update(false, false,
true, true, ..)` and so on). -/
inductive GitEvent where
  | gitInit : GitEvent
  | fetch (shallow : Bool) (url : String) (branch : Option String) : GitEvent
  | commitTree (msg : String) : GitEvent
  | resetHard (hash : String) : GitEvent
  | submoduleInitOnly : GitEvent
  | submoduleUpdate (force remote noFetch recursive : Bool) : GitEvent
deriving DecidableEq, Repr

/-- Head of the synthesized commit message (`init.rs` line 83). -/
def msgInitHead : String := "chore: init from "

/-- Middle of the synthesized commit message (`init.rs` line 83). -/
def msgInitMid : String := " at "

/-- Error propagated when the template fetch fails. -/
def msgFetchFail : String := "git: fetch failed"

/-- Error propagated when `FETCH_HEAD^\x7btree\x7d` cannot be resolved by
`commit_tree`. -/
def msgNoFetchHead : String := "git: cannot resolve FETCH_HEAD"

/-- The commit message `format!("chore: init from {template} at
{commit_hash}")` of `init.rs` line 83. -/
def commitMsg (url hash : String) : String :=
  msgInitHead ++ url ++ (msgInitMid ++ hash)

/-- Commits reachable from a hash by following parents, with fuel bounding
the walk. -/
def histFuel (cs : List (String × Commit)) : Nat → Option String → List Commit
  | 0, _ => []
  | _ + 1, none => []
  | n + 1, some h =>
      match lookupStr h cs with
      | none => []
      | some c => c :: histFuel cs n c.parent

/-- The commit history of the repository: commits reachable from head. -/
def Repo.history (r : Repo) : List Commit :=
  histFuel r.commits (r.commits.length + 1) r.head

/-- The template branch of `InitArgs::run` (`init.rs` lines 63-95):
normalize the reference, `git init`, shallow-fetch the template, read the
fetched commit hash, create a parentless commit carrying the fetched tree
and a provenance message, reset hard to it, and handle submodules according
to the request's `shallow` flag.  Returns the outcome together with the
trace of git calls made up to that point. -/
def run_template (T : TemplateEnv) (template : String) (branch : Option String)
    (shallow : Bool) : Outcome Repo × List GitEvent :=
  let url := resolveTemplate template
  let r0 : Repo := { commits := [], head := none, fetchHead := none }
  let ev1 := [GitEvent.gitInit, GitEvent.fetch true url branch]
  if !T.fetchOk then (Outcome.err msgFetchFail r0, ev1)
  else
    let r1 : Repo := { r0 with commits := T.fetched, fetchHead := some T.fetchHeadHash }
    let msg := commitMsg url T.fetchHeadHash
    match lookupStr T.fetchHeadHash r1.commits with
    | none => (Outcome.err msgNoFetchHead r1, ev1)
    | some fc =>
        let newCommit : Commit := { tree := fc.tree, message := msg, parent := none }
        let r2 : Repo := { r1 with commits := (T.newHash, newCommit) :: r1.commits }
        let r3 : Repo := { r2 with head := some T.newHash }
        let ev3 := ev1 ++ [GitEvent.commitTree msg, GitEvent.resetHard T.newHash]
        if shallow then (Outcome.ok r3, ev3 ++ [GitEvent.submoduleInitOnly])
        else (Outcome.ok r3, ev3 ++ [GitEvent.submoduleUpdate false false true true])

/-- The empty string, used by the concrete test fixtures. -/
def emptyStr : String := ""

/-- Fixture: asset contents for concrete runs (their values are irrelevant
to every claim). -/
def assets0 : Assets :=
  { vyTest := emptyStr, vyScript := emptyStr, vyReadme := emptyStr
    vyContract := emptyStr, vyInterface := emptyStr, vyDeployer := emptyStr
    solTest := emptyStr, solScript := emptyStr, solReadme := emptyStr
    solContract := emptyStr, gitignore := emptyStr
    vyWorkflow := emptyStr, solWorkflow := emptyStr }

/-- Fixture: a git collaborator reporting a clean pre-existing repository. -/
def gitClean : GitEnv := { inRepo := true, clean := true }

/-- Fixture: a git collaborator reporting a dirty pre-existing repository. -/
def gitDirty : GitEnv := { inRepo := true, clean := false }

/-- Fixture: a benign environment whose parse always fails (never consulted
on the paths exercised with it). -/
def env0 : Env :=
  { git := gitClean, cfg := some emptyStr, installOk := true
    discovered := [], parse := fun _ => none, ser := fun _ => emptyStr }

/-- Fixture: environment over a dirty repository. -/
def envDirty : Env := { env0 with git := gitDirty }

/-- Fixture: default flags, offline, no commit, no force. -/
def fl0 : Flags :=
  { offline := true, force := false, vscode := false, vyper := false
    shallow := false, noGit := false, commit := false }

/-- Fixture: flags requesting a commit. -/
def flCommit : Flags := { fl0 with commit := true }

/-- Fixture: an existing empty root directory. -/
def fs0 : FS := { rootExists := true, files := [], dirs := [] }

/-- Fixture: a root containing one file. -/
def fsNonEmpty : FS :=
  { rootExists := true, files := [(pReadme, emptyStr)], dirs := [] }

/-- Fixture: the commit object at the head of a fetched template. -/
def cA : Commit := { tree := 7, message := emptyStr, parent := none }

/-- Fixture: hash of the fetched template head. -/
def hashA : String := "a1b2"

/-- Fixture: hash git assigns to the synthesized commit. -/
def hashNew : String := "ffff"

/-- Fixture: a successful template fetch bringing one commit. -/
def tmplEnv0 : TemplateEnv :=
  { fetchOk := true, fetched := [(hashA, cA)], fetchHeadHash := hashA
    newHash := hashNew }

/-- Fixture: an `org/repo` shorthand template reference. -/
def tref : String := "foo/bar"

/-- Refinement target for C5, written from the spec's words: the persisted
remappings content is the deduplicated, lexicographically sorted list of
remapping lines joined by newlines. -/
def specRemapContent (l : List String) : String :=
  String.intercalate nl (sortStrings l.dedup)

/-- Fixture: remapping alias line `a/y`. -/
def sA : String := "a/y"

/-- Fixture: remapping alias line `b/x`. -/
def sB : String := "b/x"

/-- Fixture: environment discovering `b/x` before `a/y`. -/
def envRemap : Env := { env0 with discovered := [sB, sA] }

/-- Fixture: pre-existing custom value of the library-directory key. -/
def customVal : String := "custom"

/-- Fixture: a settings object already carrying the library-directory key. -/
def kvsCustom : List (String × Json) := [(libKey, Json.str customVal)]

/-- Fixture: raw text of an existing settings file. -/
def strSet : String := "x"

/-- Fixture: some other settings key untouched by the merge. -/
def kOther : String := "editor.tabSize"

/-- Fixture: a parse that reads `strSet` as the custom settings object. -/
def parseObjFix : String → Option Json := fun _ => some (Json.obj kvsCustom)

/-- Fixture: a parse that reads any content as a JSON array. -/
def parseArrFix : String → Option Json := fun _ => some (Json.arr [])

/-- Fixture: environment parsing settings to the custom object. -/
def envObj : Env := { env0 with parse := parseObjFix }

/-- Fixture: environment parsing settings to a non-object value. -/
def envArr : Env := { env0 with parse := parseArrFix }

/-- Fixture: a root with an existing `.vscode` directory and settings
file. -/
def fsVs : FS :=
  { rootExists := true, files := [(pSettings, strSet)], dirs := [dVscode] }

/-- Fixture: pre-existing `foundry.toml` content. -/
def tomlOld : String := "old"

/-- Fixture: a root already holding a `foundry.toml`. -/
def fsToml : FS :=
  { rootExists := true, files := [(pFoundryToml, tomlOld)], dirs := [] }

/-- Fixture: flags forcing initialization of a non-empty root. -/
def flForce : Flags := { fl0 with force := true }

end ForgeInit

namespace ForgeInit

theorem lookupStr_append {α : Type} (k : String) (xs ys : List (String × α)) :
    lookupStr k (xs ++ ys) =
      match lookupStr k xs with
      | some v => some v
      | none => lookupStr k ys := by
  induction xs with
  | nil => simp [lookupStr]
  | cons kv rest ih =>
      by_cases h : kv.1 = k <;> simp [lookupStr, h, ih]

@[simp] theorem getFile_setFile_same (fs : FS) (p c : String) :
    (fs.setFile p c).getFile p = some c := by
  simp [FS.getFile, FS.setFile, lookupStr]

theorem getFile_setFile_ne (fs : FS) {p q : String} (c : String) (h : p ≠ q) :
    (fs.setFile p c).getFile q = fs.getFile q := by
  simp [FS.getFile, FS.setFile, lookupStr, h]

@[simp] theorem getFile_createDir (fs : FS) (d p : String) :
    (fs.createDir d).getFile p = fs.getFile p := rfl

@[simp] theorem fileExists_createDir (fs : FS) (d p : String) :
    (fs.createDir d).fileExists p = fs.fileExists p := rfl

theorem fileExists_setFile_ne (fs : FS) {p q : String} (c : String) (h : p ≠ q) :
    (fs.setFile p c).fileExists q = fs.fileExists q := by
  simp [FS.fileExists, getFile_setFile_ne fs c h]

theorem remapPhase_dirs (E : Env) (fs : FS) : (remapPhase E fs).dirs = fs.dirs := by
  by_cases h1 : fs.fileExists pRemappings <;>
    by_cases h2 : E.discovered.isEmpty <;>
      simp [remapPhase, FS.setFile, h1, h2]

theorem remapPhase_dirExists (E : Env) (fs : FS) (d : String) :
    (remapPhase E fs).dirExists d = fs.dirExists d := by
  simp [FS.dirExists, remapPhase_dirs]

theorem remapPhase_getFile_ne (E : Env) (fs : FS) {p : String}
    (h : p ≠ pRemappings) : (remapPhase E fs).getFile p = fs.getFile p := by
  by_cases h1 : fs.fileExists pRemappings <;>
    by_cases h2 : E.discovered.isEmpty <;>
      simp [remapPhase, h1, h2, getFile_setFile_ne _ _ (Ne.symm h)]

theorem finishSettings_getFile_ne (E : Env) (fs : FS) (v : Json) {p : String}
    (h : p ≠ pSettings) :
    ((finishSettings E fs v).state).getFile p = fs.getFile p := by
  cases v <;>
    simp [finishSettings, Outcome.state, getFile_setFile_ne _ _ (Ne.symm h)]

theorem settingsPhase_getFile_ne (E : Env) (fs : FS) {p : String}
    (h : p ≠ pSettings) :
    ((settingsPhase E fs).state).getFile p = fs.getFile p := by
  by_cases hd : fs.dirExists dVscode
  · rcases hg : fs.getFile pSettings with _ | s
    · simp [settingsPhase, hd, hg, finishSettings_getFile_ne _ _ _ h]
    · rcases hp : E.parse s with _ | v
      · simp [settingsPhase, hd, hg, hp, Outcome.state]
      · simp [settingsPhase, hd, hg, hp, finishSettings_getFile_ne _ _ _ h]
  · have hfin := finishSettings_getFile_ne E (fs.createDir dVscode) (Json.obj []) h
    simp only [getFile_createDir] at hfin
    simp [settingsPhase, hd, hfin]

theorem sortStrings_eq_of_perm {l₁ l₂ : List String} (h : l₁.Perm l₂) :
    sortStrings l₁ = sortStrings l₂ :=
  List.eq_of_perm_of_sorted
    ((List.perm_insertionSort _ _).trans (h.trans (List.perm_insertionSort _ _).symm))
    (List.sorted_insertionSort _ _) (List.sorted_insertionSort _ _)

theorem lookupStr_insertAbsent_ne {k' k : String}
    (kvs : List (String × Json)) (v : Json) (h : k' ≠ k) :
    lookupStr k' (insertAbsent kvs k v) = lookupStr k' kvs := by
  unfold insertAbsent
  split
  · rfl
  · rw [lookupStr_append]
    cases hlk : lookupStr k' kvs
    · simp [hlk, lookupStr, Ne.symm h]
    · simp [hlk]

theorem lookupStr_insertAbsent_self (kvs : List (String × Json)) (k : String)
    (v : Json) :
    lookupStr k (insertAbsent kvs k v) =
      if (lookupStr k kvs).isSome then lookupStr k kvs else some v := by
  by_cases h : (lookupStr k kvs).isSome
  · simp [insertAbsent, h]
  · have hnone : lookupStr k kvs = none := by
      cases hlk : lookupStr k kvs
      · rfl
      · simp [hlk] at h
    simp [insertAbsent, h, hnone, lookupStr_append, lookupStr]

/-- Claim C5: the remappings file content is order-independent: for every
duplicate-free set of discovered remapping lines, in any discovery order,
the persisted `remappings.txt` content is the deduplicated,
lexicographically sorted lines joined by newlines, and the file is written
only when the set is non-empty and the file does not already exist. -/
theorem init_vscode_remappings (E : Env) (fs : FS) (l : List String)
    (hnd : l.Nodup) (hperm : E.discovered.Perm l) :
    ((init_vscode E fs).state).getFile pRemappings =
      (if fs.fileExists pRemappings then fs.getFile pRemappings
       else if E.discovered.isEmpty then none
       else some (specRemapContent l)) := by
  have hset := settingsPhase_getFile_ne E (remapPhase E fs)
    (p := pRemappings) (by decide)
  have hsort : sortStrings E.discovered = sortStrings l.dedup := by
    rw [List.dedup_eq_self.mpr hnd]
    exact sortStrings_eq_of_perm hperm
  unfold init_vscode
  rw [hset]
  by_cases h1 : fs.fileExists pRemappings
  · simp [remapPhase, h1]
  · by_cases h2 : E.discovered.isEmpty
    · have hnone : fs.getFile pRemappings = none := by
        cases hlk : fs.getFile pRemappings
        · rfl
        · simp [FS.fileExists, hlk] at h1
      simp [remapPhase, h1, h2, hnone]
    · simp [remapPhase, h1, h2, specRemapContent, hsort]

/-- Concrete instance of remapping determinism: discovering `b/x` then
`a/y` over an empty root persists the sorted content for the set
containing `a/y` and `b/x`. -/
theorem init_vscode_remappings_witness :
    ([sA, sB].Nodup ∧ envRemap.discovered.Perm [sA, sB]) ∧
    ((init_vscode envRemap fs0).state).getFile pRemappings =
      (if fs0.fileExists pRemappings then fs0.getFile pRemappings
       else if envRemap.discovered.isEmpty then none
       else some (specRemapContent [sA, sB])) :=
  ⟨⟨by decide, by decide⟩,
    init_vscode_remappings envRemap fs0 [sA, sB] (by decide) (by decide)⟩

/-- Claim C6: when an existing settings file parses as the object `kvs`,
the run succeeds, persists the serialized merged object, and the merge
inserts exactly the two fixed keys, each only when absent: a present value
under either key is preserved, every other key's value is preserved, and a
pre-existing value under any key survives into the merged object. -/
theorem init_vscode_merge (E : Env) (fs : FS) (s : String)
    (kvs : List (String × Json)) (hdir : fs.dirExists dVscode = true)
    (hfile : fs.getFile pSettings = some s)
    (hparse : E.parse s = some (Json.obj kvs)) :
    (init_vscode E fs).isOk = true ∧
    ((init_vscode E fs).state).getFile pSettings =
      some (E.ser (Json.obj (mergeSettings kvs))) ∧
    lookupStr srcKey (mergeSettings kvs) =
      (if (lookupStr srcKey kvs).isSome then lookupStr srcKey kvs
       else some (Json.str srcDirVal)) ∧
    lookupStr libKey (mergeSettings kvs) =
      (if (lookupStr libKey kvs).isSome then lookupStr libKey kvs
       else some (Json.str libDirVal)) ∧
    (∀ k, k ≠ srcKey → k ≠ libKey →
      lookupStr k (mergeSettings kvs) = lookupStr k kvs) ∧
    (∀ k v0, lookupStr k kvs = some v0 →
      lookupStr k (mergeSettings kvs) = some v0) := by
  have hdir' : (remapPhase E fs).dirExists dVscode = true := by
    rw [remapPhase_dirExists]; exact hdir
  have hfile' : (remapPhase E fs).getFile pSettings = some s := by
    rw [remapPhase_getFile_ne E fs (by decide)]; exact hfile
  have hsrc : lookupStr srcKey (mergeSettings kvs) =
      (if (lookupStr srcKey kvs).isSome then lookupStr srcKey kvs
       else some (Json.str srcDirVal)) := by
    unfold mergeSettings
    rw [lookupStr_insertAbsent_ne _ _ (by decide : srcKey ≠ libKey)]
    exact lookupStr_insertAbsent_self _ _ _
  have hlib : lookupStr libKey (mergeSettings kvs) =
      (if (lookupStr libKey kvs).isSome then lookupStr libKey kvs
       else some (Json.str libDirVal)) := by
    unfold mergeSettings
    rw [lookupStr_insertAbsent_self,
      lookupStr_insertAbsent_ne _ _ (by decide : libKey ≠ srcKey)]
  have hother : ∀ k, k ≠ srcKey → k ≠ libKey →
      lookupStr k (mergeSettings kvs) = lookupStr k kvs := by
    intro k h1 h2
    unfold mergeSettings
    rw [lookupStr_insertAbsent_ne _ _ h2, lookupStr_insertAbsent_ne _ _ h1]
  refine ⟨?_, ?_, hsrc, hlib, hother, ?_⟩
  · simp [init_vscode, settingsPhase, hdir', hfile', hparse, finishSettings,
      Outcome.isOk]
  · simp [init_vscode, settingsPhase, hdir', hfile', hparse, finishSettings,
      Outcome.state]
  · intro k v0 hk
    by_cases h1 : k = srcKey
    · subst h1
      rw [hsrc, hk]
      simp [hk]
    · by_cases h2 : k = libKey
      · subst h2
        rw [hlib, hk]
        simp [hk]
      · rw [hother k h1 h2]
        exact hk

/-- Concrete instance of the settings merge: an existing document holding a
custom library-directory value keeps it; the source-directory key is added
and an unrelated key is untouched. -/
theorem init_vscode_merge_witness :
    (fsVs.dirExists dVscode = true ∧ fsVs.getFile pSettings = some strSet ∧
      envObj.parse strSet = some (Json.obj kvsCustom)) ∧
    (init_vscode envObj fsVs).isOk = true ∧
    ((init_vscode envObj fsVs).state).getFile pSettings =
      some (envObj.ser (Json.obj (mergeSettings kvsCustom))) ∧
    lookupStr libKey (mergeSettings kvsCustom) = some (Json.str customVal) ∧
    lookupStr srcKey (mergeSettings kvsCustom) = some (Json.str srcDirVal) ∧
    lookupStr kOther (mergeSettings kvsCustom) = lookupStr kOther kvsCustom := by
  have h := init_vscode_merge envObj fsVs strSet kvsCustom (by decide) rfl rfl
  refine ⟨⟨by decide, rfl, rfl⟩, h.1, h.2.1, ?_, ?_,
    h.2.2.2.2.1 kOther (by decide) (by decide)⟩
  · exact h.2.2.2.2.2 libKey (Json.str customVal) rfl
  · rw [h.2.2.1]
    rfl

/-- Claim C7: an existing settings file whose content does not parse makes
the whole `init_vscode` operation fail with an error, and the settings file
content in the resulting state is exactly what it was. -/
theorem init_vscode_malformed (E : Env) (fs : FS) (s : String)
    (hdir : fs.dirExists dVscode = true)
    (hfile : fs.getFile pSettings = some s) (hparse : E.parse s = none) :
    (init_vscode E fs).isErr = true ∧
    ((init_vscode E fs).state).getFile pSettings = some s := by
  have hdir' : (remapPhase E fs).dirExists dVscode = true := by
    rw [remapPhase_dirExists]; exact hdir
  have hfile' : (remapPhase E fs).getFile pSettings = some s := by
    rw [remapPhase_getFile_ne E fs (by decide)]; exact hfile
  constructor
  · simp [init_vscode, settingsPhase, hdir', hfile', hparse, Outcome.isErr]
  · simp [init_vscode, settingsPhase, hdir', hfile', hparse, Outcome.state,
      hfile']

/-- Concrete instance of the malformed-settings failure: an unparseable
settings file fails the run and is left untouched. -/
theorem init_vscode_malformed_witness :
    (fsVs.dirExists dVscode = true ∧ fsVs.getFile pSettings = some strSet ∧
      env0.parse strSet = none) ∧
    (init_vscode env0 fsVs).isErr = true ∧
    ((init_vscode env0 fsVs).state).getFile pSettings = some strSet :=
  ⟨⟨by decide, rfl, rfl⟩,
    init_vscode_malformed env0 fsVs strSet (by decide) rfl rfl⟩

/-- Claim C10: an existing settings file that parses to a non-object JSON
value makes `init_vscode` panic through the `expect` assertion rather than
return an error: nothing in the flow rules such a value out. -/
theorem init_vscode_nonobject_panics (E : Env) (fs : FS) (s : String) (v : Json)
    (hdir : fs.dirExists dVscode = true)
    (hfile : fs.getFile pSettings = some s) (hparse : E.parse s = some v)
    (hobj : v.isObj = false) :
    init_vscode E fs = Outcome.fatal msgExpectObj (remapPhase E fs) := by
  have hdir' : (remapPhase E fs).dirExists dVscode = true := by
    rw [remapPhase_dirExists]; exact hdir
  have hfile' : (remapPhase E fs).getFile pSettings = some s := by
    rw [remapPhase_getFile_ne E fs (by decide)]; exact hfile
  cases v <;> simp_all [init_vscode, settingsPhase, finishSettings, Json.isObj]

/-- Concrete instance of the non-object panic: a settings file parsing to a
JSON array ends the run in the `expect` panic. -/
theorem init_vscode_nonobject_panics_witness :
    (fsVs.dirExists dVscode = true ∧ fsVs.getFile pSettings = some strSet ∧
      envArr.parse strSet = some (Json.arr []) ∧ (Json.arr []).isObj = false) ∧
    init_vscode envArr fsVs = Outcome.fatal msgExpectObj (remapPhase envArr fsVs) :=
  ⟨⟨by decide, rfl, rfl, rfl⟩,
    init_vscode_nonobject_panics envArr fsVs strSet (Json.arr []) (by decide)
      rfl rfl rfl⟩

theorem writeIfAbsent_preserve (fs : FS) (q content : String) {p c : String}
    (h : fs.getFile p = some c) :
    (if !(fs.fileExists q) then fs.setFile q content else fs).getFile p =
      some c := by
  by_cases hp : p = q
  · subst hp
    have hq : fs.fileExists p = true := by simp [FS.fileExists, h]
    simp [hq, h]
  · by_cases he : fs.fileExists q <;>
      simp [he, h, getFile_setFile_ne _ _ (Ne.symm hp)]

theorem writeIfAbsentDir_preserve (fs : FS) (q d content : String)
    {p c : String} (h : fs.getFile p = some c) :
    (if !(fs.fileExists q) then (fs.createDir d).setFile q content
     else fs).getFile p = some c := by
  by_cases hp : p = q
  · subst hp
    have hq : fs.fileExists p = true := by simp [FS.fileExists, h]
    simp [hq, h]
  · by_cases he : fs.fileExists q <;>
      simp [he, h, getFile_setFile_ne _ _ (Ne.symm hp)]

theorem tomlPhase_preserve (fl : Flags) (cfgText : String) (fs : FS)
    {p c : String} (h : fs.getFile p = some c) :
    (tomlPhase fl cfgText fs).getFile p = some c := by
  by_cases hv : fl.vyper <;>
    simpa [tomlPhase, hv] using
      writeIfAbsent_preserve fs pFoundryToml (if fl.vyper then vyperToml else cfgText) h

theorem init_git_repo_preserve (A : Assets) (fl : Flags) (fs : FS)
    {p c : String} (h : fs.getFile p = some c) :
    (init_git_repo A fl fs).getFile p = some c := by
  unfold init_git_repo
  exact writeIfAbsentDir_preserve _ pWorkflow dWorkflows _
    (writeIfAbsent_preserve fs pGitignore A.gitignore h)

theorem installPhase_getFile (E : Env) (fl : Flags) (fs : FS) (p : String) :
    ((installPhase E fl fs).state).getFile p = fs.getFile p := by
  by_cases ho : fl.offline <;> by_cases hi : E.installOk <;>
    by_cases hd : fs.dirExists dLibForgeStd <;>
      simp [installPhase, ho, hi, hd, Outcome.state]

theorem init_vscode_getFile_ne (E : Env) (fs : FS) {p : String}
    (h1 : p ≠ pRemappings) (h2 : p ≠ pSettings) :
    ((init_vscode E fs).state).getFile p = fs.getFile p := by
  unfold init_vscode
  rw [settingsPhase_getFile_ne _ _ h2, remapPhase_getFile_ne _ _ h1]

theorem scaffold_preserve (A : Assets) (fl : Flags) (fs : FS) {p c : String}
    (n1 : p ≠ pTestFile) (n2 : p ≠ pScriptFile) (n3 : p ≠ pReadme)
    (n4 : p ≠ pVyContract) (n5 : p ≠ pVyInterface) (n6 : p ≠ pVyDeployer)
    (n7 : p ≠ pSolContract) (h : fs.getFile p = some c) :
    (scaffold A fl fs).getFile p = some c := by
  by_cases hv : fl.vyper <;>
    simp [scaffold, hv, h,
      getFile_setFile_ne _ _ (Ne.symm n1), getFile_setFile_ne _ _ (Ne.symm n2),
      getFile_setFile_ne _ _ (Ne.symm n3), getFile_setFile_ne _ _ (Ne.symm n4),
      getFile_setFile_ne _ _ (Ne.symm n5), getFile_setFile_ne _ _ (Ne.symm n6),
      getFile_setFile_ne _ _ (Ne.symm n7)]

theorem gitStep_preserve (A : Assets) (fl : Flags) (fs : FS) {p c : String}
    (h : fs.getFile p = some c) : (gitStep A fl fs).getFile p = some c := by
  by_cases hng : fl.noGit <;>
    simp [gitStep, hng, h, init_git_repo_preserve A fl fs h]

theorem installVscodeStep_preserve (E : Env) (fl : Flags) (fs : FS)
    {p c : String} (n8 : p ≠ pRemappings) (n9 : p ≠ pSettings)
    (h : fs.getFile p = some c) :
    ((installVscodeStep E fl fs).state).getFile p = some c := by
  have h5 := installPhase_getFile E fl fs p
  rcases hi : installPhase E fl fs with fs5 | ⟨m, st⟩ | ⟨m, st⟩
  · rw [hi] at h5
    simp only [Outcome.state] at h5
    by_cases hvs : fl.vscode
    · simp [installVscodeStep, hi, hvs, init_vscode_getFile_ne E fs5 n8 n9,
        h5.trans h]
    · simp [installVscodeStep, hi, hvs, Outcome.state, h5.trans h]
  · rw [hi] at h5
    simp only [Outcome.state] at h5
    simp [installVscodeStep, hi, Outcome.state, h5.trans h]
  · rw [hi] at h5
    simp only [Outcome.state] at h5
    simp [installVscodeStep, hi, Outcome.state, h5.trans h]

theorem run_default_core_preserve (A : Assets) (E : Env) (fl : Flags) (fs : FS)
    {p c : String}
    (n1 : p ≠ pTestFile) (n2 : p ≠ pScriptFile) (n3 : p ≠ pReadme)
    (n4 : p ≠ pVyContract) (n5 : p ≠ pVyInterface) (n6 : p ≠ pVyDeployer)
    (n7 : p ≠ pSolContract) (n8 : p ≠ pRemappings) (n9 : p ≠ pSettings)
    (h : fs.getFile p = some c) :
    ((run_default_core A E fl fs).state).getFile p = some c := by
  have h2 := scaffold_preserve A fl fs n1 n2 n3 n4 n5 n6 n7 h
  unfold run_default_core
  by_cases g1 : (!fs.files.isEmpty || !fs.dirs.isEmpty) && !fl.force
  · simp [g1, Outcome.state, h]
  · by_cases g2 : !fl.noGit && fl.commit && !fl.force && E.git.inRepo &&
        !E.git.clean
    · simp [g1, g2, Outcome.state, h]
    · rcases hc : E.cfg with _ | cfgText
      · simp [g1, g2, hc, Outcome.state, h2]
      · have h4 := installVscodeStep_preserve E fl
          (gitStep A fl (tomlPhase fl cfgText (scaffold A fl fs))) n8 n9
          (gitStep_preserve A fl _ (tomlPhase_preserve fl cfgText _ h2))
        simp [g1, g2, hc, h4]

theorem run_default_preserve_aux (A : Assets) (E : Env) (fl : Flags) (fs : FS)
    (p c : String)
    (n1 : p ≠ pTestFile) (n2 : p ≠ pScriptFile) (n3 : p ≠ pReadme)
    (n4 : p ≠ pVyContract) (n5 : p ≠ pVyInterface) (n6 : p ≠ pVyDeployer)
    (n7 : p ≠ pSolContract) (n8 : p ≠ pRemappings) (n9 : p ≠ pSettings)
    (h : fs.getFile p = some c) :
    ((run_default A E fl fs).state).getFile p = some c := by
  unfold run_default
  have h1 : (if fs.rootExists then fs
             else { fs with rootExists := true }).getFile p = some c := by
    by_cases hr : fs.rootExists <;> simp [hr, FS.getFile] <;>
      simpa [FS.getFile] using h
  exact run_default_core_preserve A E fl _ n1 n2 n3 n4 n5 n6 n7 n8 n9 h1

/-- Claim C3: default-mode initialization never overwrites an existing
`foundry.toml`, `.gitignore`, or `.github/workflows/test.yml`: whatever
content such a file has before a run, it has the same content after the
run, and a second run leaves the content equal to what it was after the
first. -/
theorem run_default_never_overwrites (A A' : Assets) (E E' : Env)
    (fl fl' : Flags) (fs : FS) (p c : String)
    (hp : p = pFoundryToml ∨ p = pGitignore ∨ p = pWorkflow)
    (h : fs.getFile p = some c) :
    ((run_default A E fl fs).state).getFile p = some c ∧
    ((run_default A' E' fl' ((run_default A E fl fs).state)).state).getFile p =
      ((run_default A E fl fs).state).getFile p := by
  have n1 : p ≠ pTestFile := by rcases hp with rfl | rfl | rfl <;> decide
  have n2 : p ≠ pScriptFile := by rcases hp with rfl | rfl | rfl <;> decide
  have n3 : p ≠ pReadme := by rcases hp with rfl | rfl | rfl <;> decide
  have n4 : p ≠ pVyContract := by rcases hp with rfl | rfl | rfl <;> decide
  have n5 : p ≠ pVyInterface := by rcases hp with rfl | rfl | rfl <;> decide
  have n6 : p ≠ pVyDeployer := by rcases hp with rfl | rfl | rfl <;> decide
  have n7 : p ≠ pSolContract := by rcases hp with rfl | rfl | rfl <;> decide
  have n8 : p ≠ pRemappings := by rcases hp with rfl | rfl | rfl <;> decide
  have n9 : p ≠ pSettings := by rcases hp with rfl | rfl | rfl <;> decide
  have h1 := run_default_preserve_aux A E fl fs p c n1 n2 n3 n4 n5 n6 n7 n8 n9 h
  have h2 := run_default_preserve_aux A' E' fl' _ p c n1 n2 n3 n4 n5 n6 n7 n8 n9 h1
  exact ⟨h1, h2.trans h1.symm⟩

/-- Concrete instance of scaffold idempotence: a root already holding a
`foundry.toml` keeps its content through a forced run and through a second
forced run. -/
theorem run_default_never_overwrites_witness :
    fsToml.getFile pFoundryToml = some tomlOld ∧
    ((run_default assets0 env0 flForce fsToml).state).getFile pFoundryToml =
      some tomlOld ∧
    ((run_default assets0 env0 flForce
        ((run_default assets0 env0 flForce fsToml).state)).state).getFile
        pFoundryToml =
      ((run_default assets0 env0 flForce fsToml).state).getFile pFoundryToml := by
  have h := run_default_never_overwrites assets0 assets0 env0 env0 flForce
    flForce fsToml pFoundryToml tomlOld (Or.inl rfl) rfl
  exact ⟨rfl, h.1, h.2⟩

/-- Claim C1: for every template reference string `r`, the resolver produces
`r` itself if `r` contains "://"; "https://" ++ r if `r` starts with
"github.com/"; and "https://github.com/" ++ r otherwise, in that priority
order. -/
theorem resolveTemplate_matches_spec (r : String) :
    resolveTemplate r = resolvedUrlSpec r := rfl

/-- Claim C2: in default mode, a root that already contains at least one
entry and no `--force` flag makes the run fail with the descriptive
non-empty-directory error, with the filesystem exactly as it was: no
subdirectory is created and no file is written. -/
theorem run_default_nonempty_guard (A : Assets) (E : Env) (fl : Flags) (fs : FS)
    (hroot : fs.rootExists = true) (hne : fs.files ≠ [] ∨ fs.dirs ≠ [])
    (hforce : fl.force = false) :
    run_default A E fl fs = Outcome.err msgNonEmpty fs := by
  have hcond : (!fs.files.isEmpty || !fs.dirs.isEmpty) = true := by
    rcases hne with h | h <;> simp [List.isEmpty_iff, h]
  simp [run_default, run_default_core, hroot, hcond, hforce]

/-- Concrete instance of the non-empty-directory guard: a root holding one
README and no force flag fails with the filesystem untouched. -/
theorem run_default_nonempty_guard_witness :
    fsNonEmpty.rootExists = true ∧ fl0.force = false ∧
      run_default assets0 env0 fl0 fsNonEmpty = Outcome.err msgNonEmpty fsNonEmpty :=
  ⟨rfl, rfl,
    run_default_nonempty_guard assets0 env0 fl0 fsNonEmpty rfl
      (Or.inl (by simp [fsNonEmpty])) rfl⟩

/-- Claim C8: in default mode, when a commit is requested, `--force` is not
set, git is not skipped, and the root is already inside a repository whose
working tree is not clean, the run fails and the filesystem is returned
exactly as it was. -/
theorem run_default_unclean_guard (A : Assets) (E : Env) (fl : Flags) (fs : FS)
    (hroot : fs.rootExists = true) (hcommit : fl.commit = true)
    (hforce : fl.force = false) (hgit : fl.noGit = false)
    (hrepo : E.git.inRepo = true) (hclean : E.git.clean = false) :
    (run_default A E fl fs).isErr = true ∧ (run_default A E fl fs).state = fs := by
  by_cases hne : (!fs.files.isEmpty || !fs.dirs.isEmpty) = true
  · simp [run_default, run_default_core, hroot, hne, hforce, Outcome.isErr,
      Outcome.state]
  · simp [run_default, run_default_core, hroot, hne, hforce, hcommit, hgit,
      hrepo, hclean, Outcome.isErr, Outcome.state]

theorem strContains_of_infix {s u : String} (h : u.data <:+: s.data) :
    strContains s u = true := by
  simp [strContains, h]

/-- Claim C4: after a successful template-mode run, the repository's
history is exactly one commit, with no parent, whose tree is the tree of
the commit `FETCH_HEAD` resolves to, and whose message contains both the
resolved template URL and the fetched commit hash. -/
theorem run_template_collapse (T : TemplateEnv) (t : String) (b : Option String)
    (sh : Bool) (fc : Commit) (hF : T.fetchOk = true)
    (hL : lookupStr T.fetchHeadHash T.fetched = some fc) :
    (run_template T t b sh).1.isOk = true ∧
    ((run_template T t b sh).1.state).history =
      [{ tree := fc.tree, message := commitMsg (resolveTemplate t) T.fetchHeadHash
         parent := none }] ∧
    strContains (commitMsg (resolveTemplate t) T.fetchHeadHash)
      (resolveTemplate t) = true ∧
    strContains (commitMsg (resolveTemplate t) T.fetchHeadHash)
      T.fetchHeadHash = true := by
  refine ⟨?_, ?_, ?_, ?_⟩
  · cases sh <;>
      simp [run_template, hF, hL, Outcome.isOk]
  · cases sh <;>
      simp [run_template, hF, hL, Outcome.state, Repo.history, histFuel, lookupStr]
  · exact strContains_of_infix
      ⟨msgInitHead.data, (msgInitMid ++ T.fetchHeadHash).data, by
        simp [commitMsg, String.data_append]⟩
  · exact strContains_of_infix
      ⟨(msgInitHead ++ resolveTemplate t ++ msgInitMid).data, [], by
        simp [commitMsg, String.data_append]⟩

/-- Concrete instance of the template collapse: initializing from
`foo/bar` at a one-commit template yields a single parentless commit
carrying the fetched tree, whose message mentions the URL and the hash. -/
theorem run_template_collapse_witness :
    tmplEnv0.fetchOk = true ∧
    lookupStr tmplEnv0.fetchHeadHash tmplEnv0.fetched = some cA ∧
    ((run_template tmplEnv0 tref none false).1.isOk = true ∧
      ((run_template tmplEnv0 tref none false).1.state).history =
        [{ tree := cA.tree
           message := commitMsg (resolveTemplate tref) tmplEnv0.fetchHeadHash
           parent := none }] ∧
      strContains (commitMsg (resolveTemplate tref) tmplEnv0.fetchHeadHash)
        (resolveTemplate tref) = true ∧
      strContains (commitMsg (resolveTemplate tref) tmplEnv0.fetchHeadHash)
        tmplEnv0.fetchHeadHash = true) :=
  ⟨rfl, by decide,
    run_template_collapse tmplEnv0 tref none false cA rfl (by decide)⟩

/-- Claim C9: every fetch issued by template mode is shallow regardless of
the request's `shallow` flag, and the flag instead selects submodule
handling: initialize-only when set, recursive initialize-and-update when
not. -/
theorem run_template_shallow_fetch (T : TemplateEnv) (t : String)
    (b : Option String) (sh : Bool) (fc : Commit) (hF : T.fetchOk = true)
    (hL : lookupStr T.fetchHeadHash T.fetched = some fc) :
    (∀ s u br, GitEvent.fetch s u br ∈ (run_template T t b sh).2 → s = true) ∧
    GitEvent.fetch true (resolveTemplate t) b ∈ (run_template T t b sh).2 ∧
    (GitEvent.submoduleInitOnly ∈ (run_template T t b sh).2 ↔ sh = true) ∧
    (GitEvent.submoduleUpdate false false true true ∈ (run_template T t b sh).2 ↔
      sh = false) := by
  refine ⟨?_, ?_, ?_, ?_⟩
  · intro s u br h
    cases sh <;> simp [run_template, hF, hL] at h <;> exact h.1
  · cases sh <;> simp [run_template, hF, hL]
  · cases sh <;> simp [run_template, hF, hL]
  · cases sh <;> simp [run_template, hF, hL]

/-- Concrete instance of the shallow-fetch rule: with the request's shallow
flag set, the fetch is still shallow and submodules are only initialized. -/
theorem run_template_shallow_fetch_witness :
    tmplEnv0.fetchOk = true ∧
    lookupStr tmplEnv0.fetchHeadHash tmplEnv0.fetched = some cA ∧
    GitEvent.fetch true (resolveTemplate tref) none ∈
      (run_template tmplEnv0 tref none true).2 ∧
    (GitEvent.submoduleInitOnly ∈ (run_template tmplEnv0 tref none true).2 ↔
      (true : Bool) = true) :=
  ⟨rfl, by decide,
    (run_template_shallow_fetch tmplEnv0 tref none true cA rfl (by decide)).2.1,
    (run_template_shallow_fetch tmplEnv0 tref none true cA rfl (by decide)).2.2.1⟩

/-- Concrete instance of the unclean-tree guard: an empty pre-existing root
inside a dirty repository with a commit requested fails without writing
anything. -/
theorem run_default_unclean_guard_witness :
    fs0.rootExists = true ∧ flCommit.commit = true ∧ flCommit.force = false ∧
      flCommit.noGit = false ∧ envDirty.git.inRepo = true ∧
      envDirty.git.clean = false ∧
      (run_default assets0 envDirty flCommit fs0).isErr = true ∧
      (run_default assets0 envDirty flCommit fs0).state = fs0 :=
  ⟨rfl, rfl, rfl, rfl, rfl, rfl,
    run_default_unclean_guard assets0 envDirty flCommit fs0 rfl rfl rfl rfl rfl rfl⟩

end ForgeInit
